import Mathlib

/-!
Verification of the UIDRemovalDetection Arduino sketch
(src/UIDRemovalDetection/UIDRemovalDetection.ino).

Shallow embedding: the controller state is the global `locked` flag together
with the driver-owned `rfid.uid` buffer (represented as the list of its first
`size` bytes).  The vendor MFRC522 driver is an external collaborator; its
per-tick responses (result of PICC_WakeupA, result of PICC_Select, and the
bytes PICC_Select leaves in rfid.uid through the pointer it receives) are
inputs to each tick.  Every externally observable side effect of a tick —
register writes, the wakeup command, the select call with its arguments, each
serial output line, the halt command — is recorded, in program order, in a
trace of actions.
-/

namespace UIDRemoval

/-- Status codes returned by the MFRC522 driver (MFRC522::StatusCode).  The
controller only partitions them into STATUS_OK versus everything else. -/
inductive StatusCode where
  | STATUS_OK
  | STATUS_ERROR
  | STATUS_COLLISION
  | STATUS_TIMEOUT
  | STATUS_NO_ROOM
  | STATUS_INTERNAL_ERROR
  | STATUS_INVALID
  | STATUS_CRC_WRONG
  | STATUS_MIFARE_NACK
  deriving DecidableEq, Repr

/-- MFRC522 registers written by the presence probe. -/
inductive Reg where
  | TxModeReg
  | RxModeReg
  | ModWidthReg
  deriving DecidableEq, Repr

/-- One externally observable side effect of the sketch: a register write, the
wakeup command of the probe, the select call (with the uid bytes and the
knownBits argument handed to PICC_Select), one emitted serial output line, or
the halt command. -/
inductive Action where
  | writeRegister (r : Reg) (v : Nat)
  | wakeup
  | selectCall (uid : List Nat) (knownBits : Nat)
  | emit (line : String)
  | halt
  deriving DecidableEq, Repr

/-- The external driver responses consumed by one pass of loop(): the status
PICC_WakeupA returns inside the probe, the status PICC_Select returns, and the
bytes PICC_Select leaves in rfid.uid (it writes through the pointer it is
given, so these bytes become the stored identifier). -/
structure DriverResponse where
  wakeupResult : StatusCode
  selectResult : StatusCode
  selectUid : List Nat
  deriving DecidableEq, Repr

/-- Controller state: the global `locked` flag and rfid.uid, the latter as the
list of the first `size` bytes of uidByte (so clearing `size` to 0 is the
empty list). -/
structure LoopState where
  locked : Bool
  uid : List Nat
  deriving DecidableEq, Repr

/-- State established by setup(): `locked` is initialized false and setup sets
rfid.uid.size = 0. -/
def setupState : LoopState := ⟨false, []⟩

/-- One hexadecimal digit as printed by Serial.print(n, HEX) for n < 16 on the
Arduino core: a single uppercase hexadecimal digit. -/
def hexDigit (n : Nat) : String :=
  String.singleton (if n < 10 then Char.ofNat (48 + n) else Char.ofNat (65 + (n - 10)))

/-- printHex from the sketch: for each byte, print its high nibble
((buffer[i] >> 4) & 0x0F) and low nibble (buffer[i] & 0x0F) as hex digits
followed by one space. -/
def printHex : List Nat → String
  | [] => ""
  | b :: rest => hexDigit ((b >>> 4) % 16) ++ (hexDigit (b % 16) ++ (" " ++ printHex rest))

/-- PICC_IsAnyCardPresent from the sketch: write 0x00 to TxModeReg, 0x00 to
RxModeReg, 0x26 to ModWidthReg, then issue PICC_WakeupA; return true exactly
when the wakeup status is STATUS_OK or STATUS_COLLISION.  The wakeup status is
the driver response; the returned pair is (result, action trace). -/
def PICC_IsAnyCardPresent (wakeupResult : StatusCode) : Bool × List Action :=
  (decide (wakeupResult = StatusCode.STATUS_OK) ||
     decide (wakeupResult = StatusCode.STATUS_COLLISION),
   [Action.writeRegister Reg.TxModeReg 0x00,
    Action.writeRegister Reg.RxModeReg 0x00,
    Action.writeRegister Reg.ModWidthReg 0x26,
    Action.wakeup])

/-- Modelled from the spec: the vendor driver capability
statusReasonText (MFRC522::GetStatusCodeName) is not part of this repository;
the spec fixes only that STATUS_TIMEOUT reads "Timeout in communication". -/
def GetStatusCodeName : StatusCode → String
  | StatusCode.STATUS_OK => "Success"
  | StatusCode.STATUS_ERROR => "Error in communication"
  | StatusCode.STATUS_COLLISION => "Collision detected"
  | StatusCode.STATUS_TIMEOUT => "Timeout in communication"
  | StatusCode.STATUS_NO_ROOM => "A buffer is not big enough"
  | StatusCode.STATUS_INTERNAL_ERROR => "Internal error in the code"
  | StatusCode.STATUS_INVALID => "Invalid argument"
  | StatusCode.STATUS_CRC_WRONG => "The CRC_A does not match"
  | StatusCode.STATUS_MIFARE_NACK => "A MIFARE PICC responded with NAK"

/-- One pass of loop() from the sketch, parametrized by the driver reason-text
function and the driver responses of this pass.  Returns the new state and the
trace of observable actions in program order:
1. cardPresent = PICC_IsAnyCardPresent() (always executed);
2. if (!locked && !cardPresent) return;
3. result = PICC_Select(&rfid.uid, 8*rfid.uid.size) — rfid.uid afterwards
   holds the bytes the driver wrote (d.selectUid);
4. the three conditional branches updating locked / rfid.uid.size and
   printing; 5. PICC_HaltA(). -/
def loop (statusName : StatusCode → String) (d : DriverResponse) (s : LoopState) :
    LoopState × List Action :=
  let probe := PICC_IsAnyCardPresent d.wakeupResult
  if s.locked = false ∧ probe.1 = false then
    (s, probe.2)
  else
    if s.locked = false ∧ d.selectResult = StatusCode.STATUS_OK then
      (⟨true, d.selectUid⟩,
       probe.2 ++
         [Action.selectCall s.uid (8 * s.uid.length),
          Action.emit ("locked! NUID tag: " ++ printHex d.selectUid),
          Action.halt])
    else if s.locked = true ∧ ¬ d.selectResult = StatusCode.STATUS_OK then
      (⟨false, []⟩,
       probe.2 ++
         [Action.selectCall s.uid (8 * s.uid.length),
          Action.emit ("unlocked! Reason for unlocking: " ++ statusName d.selectResult),
          Action.halt])
    else if s.locked = false ∧ ¬ d.selectResult = StatusCode.STATUS_OK then
      (⟨false, []⟩,
       probe.2 ++
         [Action.selectCall s.uid (8 * s.uid.length),
          Action.halt])
    else
      (⟨s.locked, d.selectUid⟩,
       probe.2 ++
         [Action.selectCall s.uid (8 * s.uid.length),
          Action.halt])

/-- The serial output lines of an action trace, in order. -/
def emittedEvents (as : List Action) : List String :=
  as.filterMap fun a =>
    match a with
    | Action.emit line => some line
    | _ => none

/-- Iterating loop() over a sequence of per-tick driver responses, returning
the final state. -/
def run (statusName : StatusCode → String) (s : LoopState) :
    List DriverResponse → LoopState
  | [] => s
  | d :: ds => run statusName (loop statusName d s).1 ds

/-- Branch equation: Unlocked and no card present — loop() returns right after
the probe (early exit). -/
theorem loop_eq_early (sn : StatusCode → String) (d : DriverResponse) (s : LoopState)
    (h1 : s.locked = false) (h2 : (PICC_IsAnyCardPresent d.wakeupResult).1 = false) :
    loop sn d s = (s, (PICC_IsAnyCardPresent d.wakeupResult).2) := by
  simp [loop, h1, h2]

/-- Branch equation: Unlocked, card present, select returns STATUS_OK — the
sketch locks, stores the uid the driver wrote, prints the locked line, halts. -/
theorem loop_eq_lock (sn : StatusCode → String) (d : DriverResponse) (s : LoopState)
    (h1 : s.locked = false) (h2 : (PICC_IsAnyCardPresent d.wakeupResult).1 = true)
    (h3 : d.selectResult = StatusCode.STATUS_OK) :
    loop sn d s = (⟨true, d.selectUid⟩,
      (PICC_IsAnyCardPresent d.wakeupResult).2 ++
        [Action.selectCall s.uid (8 * s.uid.length),
         Action.emit ("locked! NUID tag: " ++ printHex d.selectUid),
         Action.halt]) := by
  simp [loop, h1, h2, h3]

/-- Branch equation: Locked and select not STATUS_OK — the sketch unlocks,
clears the identifier, prints the unlocked line with the reason, halts. -/
theorem loop_eq_unlock (sn : StatusCode → String) (d : DriverResponse) (s : LoopState)
    (h1 : s.locked = true) (h2 : ¬ d.selectResult = StatusCode.STATUS_OK) :
    loop sn d s = (⟨false, []⟩,
      (PICC_IsAnyCardPresent d.wakeupResult).2 ++
        [Action.selectCall s.uid (8 * s.uid.length),
         Action.emit ("unlocked! Reason for unlocking: " ++ sn d.selectResult),
         Action.halt]) := by
  simp [loop, h1, h2]

/-- Branch equation: Unlocked, card present, select not STATUS_OK — the sketch
defensively clears the identifier, prints nothing, halts. -/
theorem loop_eq_clear (sn : StatusCode → String) (d : DriverResponse) (s : LoopState)
    (h1 : s.locked = false) (h2 : (PICC_IsAnyCardPresent d.wakeupResult).1 = true)
    (h3 : ¬ d.selectResult = StatusCode.STATUS_OK) :
    loop sn d s = (⟨false, []⟩,
      (PICC_IsAnyCardPresent d.wakeupResult).2 ++
        [Action.selectCall s.uid (8 * s.uid.length),
         Action.halt]) := by
  simp [loop, h1, h2, h3]

/-- Branch equation: Locked and select STATUS_OK — no branch of the sketch
fires; the state keeps `locked` and whatever the select call left in rfid.uid,
and the tick prints nothing and halts. -/
theorem loop_eq_stay (sn : StatusCode → String) (d : DriverResponse) (s : LoopState)
    (h1 : s.locked = true) (h2 : d.selectResult = StatusCode.STATUS_OK) :
    loop sn d s = (⟨true, d.selectUid⟩,
      (PICC_IsAnyCardPresent d.wakeupResult).2 ++
        [Action.selectCall s.uid (8 * s.uid.length),
         Action.halt]) := by
  simp [loop, h1, h2]

/-- hexDigit always renders exactly one character. -/
theorem hexDigit_length (n : Nat) : (hexDigit n).length = 1 := by
  unfold hexDigit
  split <;> rfl

/-- printHex renders every byte as exactly three characters: two hexadecimal
digits and one space. -/
theorem printHex_length (u : List Nat) : (printHex u).length = 3 * u.length := by
  induction u with
  | nil => rfl
  | cons b rest ih =>
    simp [printHex, String.length_append, hexDigit_length, ih,
      show (" " : String).length = 1 from rfl]
    omega

/-- One pass of loop() preserves the invariant that a nonempty identifier
implies the locked state. -/
theorem loop_preserves_inv (sn : StatusCode → String) (d : DriverResponse) (s : LoopState)
    (h : 0 < s.uid.length → s.locked = true) :
    0 < ((loop sn d s).1).uid.length → ((loop sn d s).1).locked = true := by
  by_cases h1 : s.locked = true
  · by_cases h2 : d.selectResult = StatusCode.STATUS_OK
    · rw [loop_eq_stay sn d s h1 h2]
      intro _
      rfl
    · rw [loop_eq_unlock sn d s h1 h2]
      intro hc
      simp at hc
  · have h1f : s.locked = false := by
      revert h1
      cases s.locked <;> simp
    by_cases hp : (PICC_IsAnyCardPresent d.wakeupResult).1 = true
    · by_cases h2 : d.selectResult = StatusCode.STATUS_OK
      · rw [loop_eq_lock sn d s h1f hp h2]
        intro _
        rfl
      · rw [loop_eq_clear sn d s h1f hp h2]
        intro hc
        simp at hc
    · have hpf : (PICC_IsAnyCardPresent d.wakeupResult).1 = false := by
        revert hp
        cases (PICC_IsAnyCardPresent d.wakeupResult).1 <;> simp
      rw [loop_eq_early sn d s h1f hpf]
      exact h

/-- Iterating loop() preserves the invariant that a nonempty identifier
implies the locked state. -/
theorem run_preserves_inv (sn : StatusCode → String) (ds : List DriverResponse)
    (s : LoopState) (h : 0 < s.uid.length → s.locked = true) :
    0 < (run sn s ds).uid.length → (run sn s ds).locked = true := by
  induction ds generalizing s with
  | nil => exact h
  | cons d ds ih => exact ih (loop sn d s).1 (loop_preserves_inv sn d s h)

/-- C1: starting from the state established by setup() (unlocked, identifier
length 0), after every sequence of loop() passes the identifier is nonempty
only if the state is locked. -/
theorem C1_identifier_implies_locked (sn : StatusCode → String)
    (ds : List DriverResponse) :
    0 < (run sn setupState ds).uid.length → (run sn setupState ds).locked = true :=
  run_preserves_inv sn ds setupState (by intro h; simp [setupState] at h)

/-- C1 witness: a concrete run (one pass that locks onto a card) reaches a
state with a nonempty identifier, and the theorem yields that it is locked. -/
theorem C1_witness :
    (run GetStatusCodeName setupState
      [⟨StatusCode.STATUS_OK, StatusCode.STATUS_OK, [4, 162, 59, 156]⟩]).locked = true :=
  C1_identifier_implies_locked GetStatusCodeName
    [⟨StatusCode.STATUS_OK, StatusCode.STATUS_OK, [4, 162, 59, 156]⟩] (by decide)

/-- C2: a pass entered locked whose select returns any non-Ok status unlocks,
clears the identifier to length 0, and emits exactly one line, the unlocked
message followed by the driver reason text for that status. -/
theorem C2_locked_notok_unlocks (sn : StatusCode → String) (d : DriverResponse)
    (s : LoopState) (h1 : s.locked = true)
    (h2 : ¬ d.selectResult = StatusCode.STATUS_OK) :
    (loop sn d s).1 = ⟨false, []⟩ ∧
    emittedEvents (loop sn d s).2 =
      ["unlocked! Reason for unlocking: " ++ sn d.selectResult] := by
  rw [loop_eq_unlock sn d s h1 h2]
  refine ⟨rfl, ?_⟩
  simp [emittedEvents, PICC_IsAnyCardPresent]

/-- C2 witness: the scenario of a locked card with a select timeout — the
state unlocks with an empty identifier and the single emitted line carries the
timeout reason text. -/
theorem C2_witness :
    (loop GetStatusCodeName ⟨StatusCode.STATUS_TIMEOUT, StatusCode.STATUS_TIMEOUT, []⟩
        ⟨true, [4, 162, 59, 156]⟩).1 = ⟨false, []⟩ ∧
    emittedEvents (loop GetStatusCodeName
        ⟨StatusCode.STATUS_TIMEOUT, StatusCode.STATUS_TIMEOUT, []⟩
        ⟨true, [4, 162, 59, 156]⟩).2 =
      ["unlocked! Reason for unlocking: Timeout in communication"] := by
  have h := C2_locked_notok_unlocks GetStatusCodeName
    ⟨StatusCode.STATUS_TIMEOUT, StatusCode.STATUS_TIMEOUT, []⟩
    ⟨true, [4, 162, 59, 156]⟩ rfl (by decide)
  exact ⟨h.1, by rw [h.2]; decide⟩

/-- C3: a pass entered unlocked with a card present whose select returns
STATUS_OK with identifier bytes u locks, stores u, and emits exactly one line:
the locked message followed by each byte of u as two hexadecimal digits and a
space; in particular [0x04, 0xA2, 0x3B, 0x9C] renders as "04 A2 3B 9C ". -/
theorem C3_unlocked_ok_locks (sn : StatusCode → String) (d : DriverResponse)
    (s : LoopState) (h1 : s.locked = false)
    (h2 : (PICC_IsAnyCardPresent d.wakeupResult).1 = true)
    (h3 : d.selectResult = StatusCode.STATUS_OK) :
    (loop sn d s).1 = ⟨true, d.selectUid⟩ ∧
    emittedEvents (loop sn d s).2 = ["locked! NUID tag: " ++ printHex d.selectUid] ∧
    (printHex d.selectUid).length = 3 * d.selectUid.length ∧
    printHex [0x04, 0xA2, 0x3B, 0x9C] = "04 A2 3B 9C " := by
  rw [loop_eq_lock sn d s h1 h2 h3]
  refine ⟨rfl, ?_, printHex_length d.selectUid, by decide⟩
  simp [emittedEvents, PICC_IsAnyCardPresent]

/-- C3 witness: the scenario of a new card with uid bytes
[0x04, 0xA2, 0x3B, 0x9C] detected while unlocked — the state locks on it and
the single emitted line is the locked message with the hex dump. -/
theorem C3_witness :
    (loop GetStatusCodeName ⟨StatusCode.STATUS_OK, StatusCode.STATUS_OK,
        [4, 162, 59, 156]⟩ ⟨false, []⟩).1 = ⟨true, [4, 162, 59, 156]⟩ ∧
    emittedEvents (loop GetStatusCodeName ⟨StatusCode.STATUS_OK, StatusCode.STATUS_OK,
        [4, 162, 59, 156]⟩ ⟨false, []⟩).2 = ["locked! NUID tag: 04 A2 3B 9C "] := by
  have h := C3_unlocked_ok_locks GetStatusCodeName
    ⟨StatusCode.STATUS_OK, StatusCode.STATUS_OK, [4, 162, 59, 156]⟩
    ⟨false, []⟩ rfl (by decide) rfl
  refine ⟨h.1, ?_⟩
  rw [h.2.1]
  decide

/-- C4 counterexample: the claim says the presence probe is skipped on every
pass entered locked, but on a concrete locked pass the wakeup command of the
probe occurs in the action trace — loop() calls PICC_IsAnyCardPresent()
unconditionally before testing `locked`. -/
theorem C4_counterexample :
    Action.wakeup ∈ (loop GetStatusCodeName
      ⟨StatusCode.STATUS_OK, StatusCode.STATUS_OK, [4]⟩ ⟨true, [4]⟩).2 := by
  decide

/-- C4 (amended): the presence probe runs on every pass regardless of lock
state; its result is only consulted when unlocked, and a pass entered locked
always proceeds to the selection attempt. -/
theorem C4_probe_every_tick (sn : StatusCode → String) (d : DriverResponse)
    (s : LoopState) :
    Action.wakeup ∈ (loop sn d s).2 ∧
    (s.locked = true →
      Action.selectCall s.uid (8 * s.uid.length) ∈ (loop sn d s).2) := by
  by_cases h1 : s.locked = true
  · by_cases h2 : d.selectResult = StatusCode.STATUS_OK
    · rw [loop_eq_stay sn d s h1 h2]
      simp [PICC_IsAnyCardPresent]
    · rw [loop_eq_unlock sn d s h1 h2]
      simp [PICC_IsAnyCardPresent]
  · have h1f : s.locked = false := by
      revert h1
      cases s.locked <;> simp
    refine ⟨?_, fun hc => absurd hc h1⟩
    by_cases hp : (PICC_IsAnyCardPresent d.wakeupResult).1 = true
    · by_cases h2 : d.selectResult = StatusCode.STATUS_OK
      · rw [loop_eq_lock sn d s h1f hp h2]
        simp [PICC_IsAnyCardPresent]
      · rw [loop_eq_clear sn d s h1f hp h2]
        simp [PICC_IsAnyCardPresent]
    · have hpf : (PICC_IsAnyCardPresent d.wakeupResult).1 = false := by
        revert hp
        cases (PICC_IsAnyCardPresent d.wakeupResult).1 <;> simp
      rw [loop_eq_early sn d s h1f hpf]
      simp [PICC_IsAnyCardPresent]

/-- C4 witness: on a concrete locked pass the probe runs and the selection
attempt with the stored identifier occurs. -/
theorem C4_witness :
    Action.wakeup ∈ (loop GetStatusCodeName
      ⟨StatusCode.STATUS_TIMEOUT, StatusCode.STATUS_OK, [7]⟩ ⟨true, [7]⟩).2 ∧
    Action.selectCall [7] 8 ∈ (loop GetStatusCodeName
      ⟨StatusCode.STATUS_TIMEOUT, StatusCode.STATUS_OK, [7]⟩ ⟨true, [7]⟩).2 := by
  have h := C4_probe_every_tick GetStatusCodeName
    ⟨StatusCode.STATUS_TIMEOUT, StatusCode.STATUS_OK, [7]⟩ ⟨true, [7]⟩
  exact ⟨h.1, by simpa using h.2 rfl⟩

/-- C5: a pass entered locked whose select returns STATUS_OK and reconfirms
the stored identifier (the driver contract when knownBitLength is nonzero)
changes neither the lock state nor the identifier and emits nothing; hence
any number of repeated such passes leaves the state identical — in particular
a second card in range while locked causes no state change and no event. -/
theorem C5_locked_ok_noop (sn : StatusCode → String) (d : DriverResponse)
    (s : LoopState) (h1 : s.locked = true)
    (h2 : d.selectResult = StatusCode.STATUS_OK) (h3 : d.selectUid = s.uid) :
    (loop sn d s).1 = s ∧ emittedEvents (loop sn d s).2 = [] ∧
    ∀ n : Nat, run sn s (List.replicate n d) = s := by
  have hstep : (loop sn d s).1 = s := by
    rw [loop_eq_stay sn d s h1 h2]
    rw [h3, ← h1]
  refine ⟨hstep, ?_, ?_⟩
  · rw [loop_eq_stay sn d s h1 h2]
    simp [emittedEvents, PICC_IsAnyCardPresent]
  · intro n
    induction n with
    | zero => rfl
    | succ k ih =>
      rw [List.replicate_succ]
      show run sn (loop sn d s).1 (List.replicate k d) = s
      rw [hstep]
      exact ih

/-- C5 witness: three repeated locked passes that keep reconfirming the stored
identifier leave the concrete state untouched and emit nothing. -/
theorem C5_witness :
    (loop GetStatusCodeName ⟨StatusCode.STATUS_OK, StatusCode.STATUS_OK, [4]⟩
        ⟨true, [4]⟩).1 = ⟨true, [4]⟩ ∧
    emittedEvents (loop GetStatusCodeName
        ⟨StatusCode.STATUS_OK, StatusCode.STATUS_OK, [4]⟩ ⟨true, [4]⟩).2 = [] ∧
    run GetStatusCodeName ⟨true, [4]⟩
        (List.replicate 3 ⟨StatusCode.STATUS_OK, StatusCode.STATUS_OK, [4]⟩) =
      ⟨true, [4]⟩ := by
  have h := C5_locked_ok_noop GetStatusCodeName
    ⟨StatusCode.STATUS_OK, StatusCode.STATUS_OK, [4]⟩ ⟨true, [4]⟩ rfl rfl rfl
  exact ⟨h.1, h.2.1, h.2.2 3⟩

/-- C6: a pass entered unlocked with a card present whose select returns any
non-Ok status stays unlocked, clears the identifier to length 0 whatever bytes
the failed select wrote, and emits nothing. -/
theorem C6_unlocked_notok_clears (sn : StatusCode → String) (d : DriverResponse)
    (s : LoopState) (h1 : s.locked = false)
    (h2 : (PICC_IsAnyCardPresent d.wakeupResult).1 = true)
    (h3 : ¬ d.selectResult = StatusCode.STATUS_OK) :
    (loop sn d s).1 = ⟨false, []⟩ ∧ emittedEvents (loop sn d s).2 = [] := by
  rw [loop_eq_clear sn d s h1 h2 h3]
  refine ⟨rfl, ?_⟩
  simp [emittedEvents, PICC_IsAnyCardPresent]

/-- C6 witness: the CRC-error scenario — unlocked, card present, select fails
with STATUS_CRC_WRONG after writing garbage bytes; the identifier ends empty,
the state stays unlocked, and no line is emitted. -/
theorem C6_witness :
    (loop GetStatusCodeName ⟨StatusCode.STATUS_OK, StatusCode.STATUS_CRC_WRONG, [9, 9]⟩
        ⟨false, []⟩).1 = ⟨false, []⟩ ∧
    emittedEvents (loop GetStatusCodeName
        ⟨StatusCode.STATUS_OK, StatusCode.STATUS_CRC_WRONG, [9, 9]⟩
        ⟨false, []⟩).2 = [] := by
  have h := C6_unlocked_notok_clears GetStatusCodeName
    ⟨StatusCode.STATUS_OK, StatusCode.STATUS_CRC_WRONG, [9, 9]⟩
    ⟨false, []⟩ rfl (by decide) (by decide)
  exact h

/-- C7: a pass entered unlocked on which the probe reports no card performs no
selection attempt, issues no halt, emits nothing, and leaves the state
unchanged. -/
theorem C7_absent_early_exit (sn : StatusCode → String) (d : DriverResponse)
    (s : LoopState) (h1 : s.locked = false)
    (h2 : (PICC_IsAnyCardPresent d.wakeupResult).1 = false) :
    (loop sn d s).1 = s ∧
    (∀ u k, Action.selectCall u k ∉ (loop sn d s).2) ∧
    Action.halt ∉ (loop sn d s).2 ∧
    emittedEvents (loop sn d s).2 = [] := by
  rw [loop_eq_early sn d s h1 h2]
  refine ⟨rfl, ?_, ?_, ?_⟩ <;> simp [emittedEvents, PICC_IsAnyCardPresent]

/-- C7 witness: unlocked, wakeup times out (card absent) — the concrete pass
leaves the state unchanged, issues no halt and emits nothing. -/
theorem C7_witness :
    (loop GetStatusCodeName ⟨StatusCode.STATUS_TIMEOUT, StatusCode.STATUS_OK, []⟩
        ⟨false, []⟩).1 = ⟨false, []⟩ ∧
    Action.halt ∉ (loop GetStatusCodeName
        ⟨StatusCode.STATUS_TIMEOUT, StatusCode.STATUS_OK, []⟩ ⟨false, []⟩).2 ∧
    emittedEvents (loop GetStatusCodeName
        ⟨StatusCode.STATUS_TIMEOUT, StatusCode.STATUS_OK, []⟩ ⟨false, []⟩).2 = [] := by
  have h := C7_absent_early_exit GetStatusCodeName
    ⟨StatusCode.STATUS_TIMEOUT, StatusCode.STATUS_OK, []⟩ ⟨false, []⟩ rfl (by decide)
  exact ⟨h.1, h.2.2.1, h.2.2.2⟩

/-- C8 counterexample: the claim says a halt command is issued on every pass,
but on a concrete pass entered unlocked with no card present loop() returns at
the early exit and no halt occurs in the trace. -/
theorem C8_counterexample :
    Action.halt ∉ (loop GetStatusCodeName
      ⟨StatusCode.STATUS_TIMEOUT, StatusCode.STATUS_OK, []⟩ ⟨false, []⟩).2 := by
  decide

/-- C8 (amended): on every pass that reaches the selection attempt — that is,
every pass entered locked or on which the probe reports a card — a halt
command is issued, and it is the last action of the pass, after the
state-transition step. -/
theorem C8_halt_after_select (sn : StatusCode → String) (d : DriverResponse)
    (s : LoopState)
    (h : s.locked = true ∨ (PICC_IsAnyCardPresent d.wakeupResult).1 = true) :
    ∃ pre, (loop sn d s).2 = pre ++ [Action.halt] := by
  by_cases h1 : s.locked = true
  · by_cases h2 : d.selectResult = StatusCode.STATUS_OK
    · refine ⟨(PICC_IsAnyCardPresent d.wakeupResult).2 ++
        [Action.selectCall s.uid (8 * s.uid.length)], ?_⟩
      rw [loop_eq_stay sn d s h1 h2]
      simp
    · refine ⟨(PICC_IsAnyCardPresent d.wakeupResult).2 ++
        [Action.selectCall s.uid (8 * s.uid.length),
         Action.emit ("unlocked! Reason for unlocking: " ++ sn d.selectResult)], ?_⟩
      rw [loop_eq_unlock sn d s h1 h2]
      simp
  · have h1f : s.locked = false := by
      revert h1
      cases s.locked <;> simp
    have h2 : (PICC_IsAnyCardPresent d.wakeupResult).1 = true := by
      rcases h with hl | hp
      · exact absurd hl h1
      · exact hp
    by_cases h3 : d.selectResult = StatusCode.STATUS_OK
    · refine ⟨(PICC_IsAnyCardPresent d.wakeupResult).2 ++
        [Action.selectCall s.uid (8 * s.uid.length),
         Action.emit ("locked! NUID tag: " ++ printHex d.selectUid)], ?_⟩
      rw [loop_eq_lock sn d s h1f h2 h3]
      simp
    · refine ⟨(PICC_IsAnyCardPresent d.wakeupResult).2 ++
        [Action.selectCall s.uid (8 * s.uid.length)], ?_⟩
      rw [loop_eq_clear sn d s h1f h2 h3]
      simp

/-- C8 witness: on a concrete locked pass the trace ends with the halt
command. -/
theorem C8_witness :
    Action.halt ∈ (loop GetStatusCodeName
      ⟨StatusCode.STATUS_OK, StatusCode.STATUS_OK, [4]⟩ ⟨true, [4]⟩).2 := by
  obtain ⟨pre, hp⟩ := C8_halt_after_select GetStatusCodeName
    ⟨StatusCode.STATUS_OK, StatusCode.STATUS_OK, [4]⟩ ⟨true, [4]⟩ (Or.inl rfl)
  rw [hp]
  simp

/-- C9: whenever a pass calls PICC_Select, it passes the current identifier
and a knownBits argument equal to 8 times the identifier length in bytes —
hence 0 when the identifier is empty. -/
theorem C9_select_args (sn : StatusCode → String) (d : DriverResponse)
    (s : LoopState) (u : List Nat) (k : Nat)
    (h : Action.selectCall u k ∈ (loop sn d s).2) :
    u = s.uid ∧ k = 8 * s.uid.length := by
  by_cases h1 : s.locked = true
  · by_cases h2 : d.selectResult = StatusCode.STATUS_OK
    · rw [loop_eq_stay sn d s h1 h2] at h
      simp [PICC_IsAnyCardPresent] at h
      exact h
    · rw [loop_eq_unlock sn d s h1 h2] at h
      simp [PICC_IsAnyCardPresent] at h
      exact h
  · have h1f : s.locked = false := by
      revert h1
      cases s.locked <;> simp
    by_cases hp : (PICC_IsAnyCardPresent d.wakeupResult).1 = true
    · by_cases h2 : d.selectResult = StatusCode.STATUS_OK
      · rw [loop_eq_lock sn d s h1f hp h2] at h
        simp [PICC_IsAnyCardPresent] at h
        exact h
      · rw [loop_eq_clear sn d s h1f hp h2] at h
        simp [PICC_IsAnyCardPresent] at h
        exact h
    · have hpf : (PICC_IsAnyCardPresent d.wakeupResult).1 = false := by
        revert hp
        cases (PICC_IsAnyCardPresent d.wakeupResult).1 <;> simp
      rw [loop_eq_early sn d s h1f hpf] at h
      simp [PICC_IsAnyCardPresent] at h

/-- C9 witness: on a concrete locked pass holding one identifier byte, the
select call in the trace carries that identifier and knownBits 8. -/
theorem C9_witness :
    ([4] : List Nat) = (⟨true, [4]⟩ : LoopState).uid ∧
    8 = 8 * (⟨true, [4]⟩ : LoopState).uid.length :=
  C9_select_args GetStatusCodeName ⟨StatusCode.STATUS_OK, StatusCode.STATUS_OK, [4]⟩
    ⟨true, [4]⟩ [4] 8 (by decide)

/-- C10: every invocation of the presence probe performs, in order, the writes
0x00 to TxModeReg, 0x00 to RxModeReg, 0x26 to ModWidthReg, then the wakeup
command, and returns true exactly when the wakeup status is STATUS_OK or
STATUS_COLLISION. -/
theorem C10_probe_behavior (r : StatusCode) :
    (PICC_IsAnyCardPresent r).2 =
      [Action.writeRegister Reg.TxModeReg 0x00,
       Action.writeRegister Reg.RxModeReg 0x00,
       Action.writeRegister Reg.ModWidthReg 0x26,
       Action.wakeup] ∧
    ((PICC_IsAnyCardPresent r).1 = true ↔
      (r = StatusCode.STATUS_OK ∨ r = StatusCode.STATUS_COLLISION)) := by
  cases r <;> simp [PICC_IsAnyCardPresent]

end UIDRemoval
